import Mathlib

/-!
Shallow embedding of the telemetry extraction engine of fit_to_csv.py
(class FastFitFileProcessor, function process_single_file and class
FastFitToCsvPipeline).

Modelling conventions:
- dictionary keys that may be absent are modelled as Option fields; the
  source reads most of them with .get and a default, embedded as getD;
- timestamps are epoch milliseconds (sensor rows) or epoch units (record
  rows), as natural numbers; the datetime normalisation of the source is
  value-preserving and collapses in the model;
- numeric field values are integers; the stringification of the primary
  developer field is a presentation detail and is kept as the value;
- the two sensor kinds read structurally identical axis fields that differ
  only in the name prefix (calibrated_accel_* versus calibrated_gyro_*), so
  one SensorGroup record carries one axis triple and the sensor kind only
  selects which message list of the table is read;
- a Python exception that escapes a modelled step is an Except.error or an
  Option none, as noted at each definition.
-/

namespace FitExtract

/-- Recognized self-report event type codes (fit_to_csv.py line 24:
VALID_SELF_REPORT_EVENT_TYPES = {1, 2}). -/
def VALID_SELF_REPORT_EVENT_TYPES : List Int := [1, 2]

/-- One sensor sample group message. Fields absent from the dict are none;
the source reads timestamp_ms with default 0 and the four sequences with
default [] (fit_to_csv.py lines 87-92). -/
structure SensorGroup where
  timestamp_ms : Option Nat
  sample_time_offset : Option (List Nat)
  x : Option (List Int)
  y : Option (List Int)
  z : Option (List Int)
deriving DecidableEq, Repr

/-- One output row of sensor data: absolute timestamp (base plus offset,
in milliseconds) and the three axis values. -/
structure SensorRow where
  timestamp : Nat
  x : Int
  y : Int
  z : Int
deriving DecidableEq, Repr

/-- Index-wise pairing of the four equal-length column segments one valid
group contributes: the source accumulates parallel timestamp/x/y/z columns
(lines 98-106) and the final DataFrame pairs them by position, so row i has
timestamp base + offset i and the axis values at index i. -/
def zip4Rows (base : Nat) : List Nat → List Int → List Int → List Int → List SensorRow
  | o :: os, xv :: xs, yv :: ys, zv :: zs =>
      { timestamp := base + o, x := xv, y := yv, z := zv } :: zip4Rows base os xs ys zs
  | _, _, _, _ => []

/-- Rows contributed by one group (loop body of _extract_sensor_data_fast,
lines 85-109): a group whose x, y, z and offset sequences disagree in
length is skipped entirely (line 95-96); a missing base timestamp defaults
to 0 and missing sequences default to []. -/
def groupRows (g : SensorGroup) : List SensorRow :=
  let offsets := g.sample_time_offset.getD []
  let xs := g.x.getD []
  let ys := g.y.getD []
  let zs := g.z.getD []
  if xs.length = ys.length ∧ ys.length = zs.length ∧ zs.length = offsets.length then
    zip4Rows (g.timestamp_ms.getD 0) offsets xs ys zs
  else []

/-- One record message of the main record stream: optional timestamp,
optional heart rate, and the positional developer fields list (read with
default [], line 180). -/
structure RecordMsg where
  timestamp : Option Nat
  heart_rate : Option Nat
  developer_fields : List Int
deriving DecidableEq, Repr

/-- One output row of the record stream (lines 200-204). -/
structure RecordRow where
  timestamp : Nat
  heart_rate : Option Nat
  developer_field : Option Int
deriving DecidableEq, Repr

/-- One self-report interval row; end_timestamp = none models the NAN
open-end marker the source writes at opening (line 129). -/
structure SelfReportRow where
  start_timestamp : Nat
  end_timestamp : Option Nat
  event_type : Int
deriving DecidableEq, Repr

/-- The decoded message table of one file: the three message-type keys the
engine reads, each absent (none) or an ordered message list. -/
structure MessageTable where
  accelerometer_data_mesgs : Option (List SensorGroup)
  gyroscope_data_mesgs : Option (List SensorGroup)
  record_mesgs : Option (List RecordMsg)
deriving DecidableEq, Repr

/-- The two sensor kind selectors of _extract_sensor_data_fast. -/
inductive SensorType
  | accelerometer
  | gyroscope
deriving DecidableEq, Repr

/-- Message-list lookup performed at lines 63-77: the sensor kind selects
which message key of the table is read. -/
def sensorGroupsOf (msgs : MessageTable) : SensorType → Option (List SensorGroup)
  | SensorType.accelerometer => msgs.accelerometer_data_mesgs
  | SensorType.gyroscope => msgs.gyroscope_data_mesgs

/-- Embedding of _extract_sensor_data_fast (lines 52-121): none when the
message key is absent (line 73-75), none when zero rows result after all
groups (lines 111-112), otherwise the concatenated rows in encounter
order. -/
def extract_sensor_data_fast (msgs : MessageTable) (st : SensorType) : Option (List SensorRow) :=
  match sensorGroupsOf msgs st with
  | none => none
  | some groups =>
      let rows := groups.flatMap groupRows
      if rows.isEmpty then none else some rows

/-- Embedding of the pandas update at line 134: set the end timestamp of
the last row. none models the IndexError raised on an empty frame. -/
def setLastEnd : List SelfReportRow → Nat → Option (List SelfReportRow)
  | [], _ => none
  | [r], t => some [{ r with end_timestamp := some t }]
  | r :: s :: rest, t => (setLastEnd (s :: rest) t).map (fun df => r :: df)

/-- Embedding of _process_self_reports (lines 123-137). The outer guard
requires a recognized event type; the open branch requires state Idle and
flag value 1; the close branch requires state Active and flag value 0;
every other input is a no-op. none models an exception escaping the body
(only possible from setLastEnd on an empty frame). -/
def process_self_reports (timestamp : Nat) (event_type : Int)
    (df_event_self_reports : List SelfReportRow) (is_event_active : Bool)
    (is_event_active_Field : Int) : Option (List SelfReportRow × Bool) :=
  if event_type ∈ VALID_SELF_REPORT_EVENT_TYPES then
    if is_event_active = false ∧ is_event_active_Field = 1 then
      some (df_event_self_reports ++
        [{ start_timestamp := timestamp, end_timestamp := none, event_type := event_type }], true)
    else if is_event_active = true ∧ is_event_active_Field = 0 then
      (setLastEnd df_event_self_reports timestamp).map (fun df => (df, false))
    else
      some (df_event_self_reports, is_event_active)
  else
    some (df_event_self_reports, is_event_active)

/-- Accumulated state of the record walk of _extract_record_data_fast:
the record rows gathered so far, the self-report frame, and the detector
flag (lines 152-159). -/
structure RecState where
  rows : List RecordRow
  df_event : List SelfReportRow
  is_event_active : Bool
deriving DecidableEq, Repr

/-- Initial walk state: empty row lists, detector Idle (lines 153-159). -/
def initRecState : RecState := { rows := [], df_event := [], is_event_active := false }

/-- The record row one record message contributes, if any: none when the
timestamp is absent (the record is skipped, lines 164-166), otherwise the
timestamp, heart rate and first developer field (lines 168-185). -/
def rowOf (record : RecordMsg) : Option RecordRow :=
  record.timestamp.map (fun ts =>
    { timestamp := ts, heart_rate := record.heart_rate,
      developer_field := record.developer_fields.head? })

/-- Embedding of one iteration of the record loop (lines 161-194). A record
without a timestamp is skipped. Otherwise its record row is appended first
(lines 183-185); then the detector reads developer field positions 1 and 2
(lines 188-189): if either is out of range the IndexError is caught by the
per-record handler after the row was already appended, leaving the detector
state unchanged; otherwise _process_self_reports updates the detector state
(line 190), an exception inside it likewise leaving the old state. -/
def record_step (s : RecState) (record : RecordMsg) : RecState :=
  match record.timestamp with
  | none => s
  | some timestamp =>
      let rows := s.rows ++
        [{ timestamp := timestamp, heart_rate := record.heart_rate,
           developer_field := record.developer_fields.head? }]
      match record.developer_fields.get? 1, record.developer_fields.get? 2 with
      | some fld, some ety =>
          match process_self_reports timestamp ety s.df_event s.is_event_active fld with
          | some (df, active) => { rows := rows, df_event := df, is_event_active := active }
          | none => { rows := rows, df_event := s.df_event, is_event_active := s.is_event_active }
      | _, _ => { rows := rows, df_event := s.df_event, is_event_active := s.is_event_active }

/-- Embedding of _extract_record_data_fast (lines 139-206): none when the
record message key is absent (lines 146-148) or no record produced a row
(lines 196-197); otherwise the record rows and the self-report frame. -/
def extract_record_data_fast (msgs : MessageTable) :
    Option (List RecordRow × List SelfReportRow) :=
  match msgs.record_mesgs with
  | none => none
  | some record_messages =>
      let s := record_messages.foldl record_step initRecState
      if s.rows.isEmpty then none else some (s.rows, s.df_event)

/-- Embedding of process_to_csv (lines 208-265). The argument is the decode
result: none models decode_file returning False, upon which the unit
returns with no outputs (lines 212-213). Otherwise the accelerometer and
gyroscope tables are extracted and written first (lines 226-241); then line
244 unpacks the result of _extract_record_data_fast into two variables, so
a no-data none from it raises a TypeError that escapes the unit: this is
the Except.error case, whose payload records the two sensor tables already
written before the crash. In the successful case the record table is
always nonempty and the self-report frame (possibly empty) is always
written, so both are some. -/
def process_to_csv (decoded : Option MessageTable) :
    Except (Option (List SensorRow) × Option (List SensorRow)) (Option (List SensorRow) × Option (List SensorRow) × Option (List RecordRow) × Option (List SelfReportRow)) :=
  match decoded with
  | none => Except.ok (none, none, none, none)
  | some msgs =>
      let accel_df := extract_sensor_data_fast msgs SensorType.accelerometer
      let gyro_df := extract_sensor_data_fast msgs SensorType.gyroscope
      match extract_record_data_fast msgs with
      | none => Except.error (accel_df, gyro_df)
      | some (record_df, self_report_df) =>
          Except.ok (accel_df, gyro_df, some record_df, some self_report_df)

/-- Embedding of process_single_file (lines 268-273): the success flag is
true iff at least one of the four returned paths is not None. A TypeError
escaping process_to_csv propagates. -/
def process_single_file (decoded : Option MessageTable) :
    Except (Option (List SensorRow) × Option (List SensorRow)) Bool :=
  Except.map
    (fun outputs =>
      match outputs with
      | (accel, gyro, records, selfs) =>
          accel.isSome || gyro.isSome || records.isSome || selfs.isSome)
    (process_to_csv decoded)

/-- Embedding of the worker-pool branch of process_all_files (lines
306-325): every file is dispatched; each completed future is read inside a
try block, so a unit whose exception escapes merely fails to increment the
success count and the remaining futures are still collected. The count is
order-independent, so completion order is modelled as submission order. -/
def process_pool (files : List (Option MessageTable)) : Nat :=
  files.foldl
    (fun success_count f =>
      match process_single_file f with
      | Except.ok true => success_count + 1
      | _ => success_count)
    0

/-- Embedding of the sequential branch of process_all_files (lines
326-332): the loop body has no exception handler, so an exception escaping
a unit propagates and aborts the whole batch before later files run. -/
def process_sequential (files : List (Option MessageTable)) :
    Except (Option (List SensorRow) × Option (List SensorRow)) Nat :=
  List.foldlM
    (fun success_count f =>
      Except.map
        (fun success => if success then success_count + 1 else success_count)
        (process_single_file f))
    0 files

/-- Embedding of process_all_files (lines 290-337): the pool branch is
taken when multiprocessing is enabled and more than one file was found,
otherwise the files run sequentially. The ok payload is the reported
success count (an empty batch returns early and is modelled as ok 0). -/
def process_all_files (files : List (Option MessageTable)) (use_multiprocessing : Bool) :
    Except (Option (List SensorRow) × Option (List SensorRow)) Nat :=
  if use_multiprocessing ∧ files.length > 1 then Except.ok (process_pool files)
  else process_sequential files

/-- Number of open intervals (end still the open marker) in a self-report
frame. -/
def openCount (df : List SelfReportRow) : Nat :=
  (df.filter (fun r => r.end_timestamp.isNone)).length

/-- Detector-only view of one record step: how the self-report frame and
the active flag evolve, which depends only on them and the record. -/
def detStep (dp : List SelfReportRow × Bool) (record : RecordMsg) :
    List SelfReportRow × Bool :=
  match record.timestamp with
  | none => dp
  | some timestamp =>
      match record.developer_fields.get? 1, record.developer_fields.get? 2 with
      | some fld, some ety => (process_self_reports timestamp ety dp.1 dp.2 fld).getD dp
      | _, _ => dp

/-- Detector invariant maintained along the record walk: when Active the
frame is a closed prefix followed by exactly one open row (the most
recently opened one); when Idle every row is closed. -/
def DetInv (df : List SelfReportRow) : Bool → Prop
  | true => ∃ d r, df = d ++ [r] ∧ r.end_timestamp = none ∧ openCount d = 0
  | false => openCount df = 0

/-- Concrete sensor group used in witnesses: valid, two samples. -/
def accelGroup : SensorGroup :=
  { timestamp_ms := some 1000, sample_time_offset := some [0, 20],
    x := some [1, 2], y := some [3, 4], z := some [5, 6] }

/-- Concrete table with accelerometer data but no record messages; decoding
it succeeds yet the record unpack at line 244 raises. -/
def crashTable : MessageTable :=
  { accelerometer_data_mesgs := some [accelGroup],
    gyroscope_data_mesgs := none, record_mesgs := none }

/-- Concrete record message that opens a self-report interval: developer
fields [battery, active-flag 1, event-type 1]. -/
def goodRecord : RecordMsg :=
  { timestamp := some 10, heart_rate := some 70, developer_fields := [0, 1, 1] }

/-- Concrete table whose single record stream processes successfully. -/
def goodTable : MessageTable :=
  { accelerometer_data_mesgs := none, gyroscope_data_mesgs := none,
    record_mesgs := some [goodRecord] }

/-- Concrete table lacking the accelerometer message key. -/
def absentTable : MessageTable :=
  { accelerometer_data_mesgs := none, gyroscope_data_mesgs := none,
    record_mesgs := none }

/-- Concrete table whose accelerometer message key is present with zero
groups. -/
def emptyPresentTable : MessageTable :=
  { accelerometer_data_mesgs := some [], gyroscope_data_mesgs := none,
    record_mesgs := none }

/-- Concrete open self-report row used in counterexamples. -/
def openRow : SelfReportRow :=
  { start_timestamp := 5, end_timestamp := none, event_type := 1 }

/-- Concrete group whose axis lengths mismatch. -/
def badGroup : SensorGroup :=
  { timestamp_ms := some 0, sample_time_offset := some [0],
    x := some [1], y := some [], z := some [1] }

/-- Concrete group without a base timestamp but with valid lengths. -/
def noBaseGroup : SensorGroup :=
  { timestamp_ms := none, sample_time_offset := some [3, 4],
    x := some [1, 2], y := some [1, 2], z := some [1, 2] }

/-- Concrete record with a timestamp but only one developer field, so the
detector positions 1 and 2 are absent. -/
def auxMissingRecord : RecordMsg :=
  { timestamp := some 5, heart_rate := some 70, developer_fields := [9] }

lemma zip4Rows_length (base : Nat) :
    ∀ (os : List Nat) (xs ys zs : List Int),
      xs.length = ys.length → ys.length = zs.length → zs.length = os.length →
      (zip4Rows base os xs ys zs).length = os.length := by
  intro os
  induction os with
  | nil => intro xs ys zs h1 h2 h3; cases xs <;> cases ys <;> cases zs <;> simp_all [zip4Rows]
  | cons o os ih =>
      intro xs ys zs h1 h2 h3
      cases xs <;> cases ys <;> cases zs <;> simp_all [zip4Rows]

lemma zip4Rows_map_timestamp (base : Nat) :
    ∀ (os : List Nat) (xs ys zs : List Int),
      xs.length = ys.length → ys.length = zs.length → zs.length = os.length →
      (zip4Rows base os xs ys zs).map (fun r => r.timestamp) = os.map (fun o => base + o) := by
  intro os
  induction os with
  | nil => intro xs ys zs h1 h2 h3; cases xs <;> cases ys <;> cases zs <;> simp_all [zip4Rows]
  | cons o os ih =>
      intro xs ys zs h1 h2 h3
      cases xs <;> cases ys <;> cases zs <;> simp_all [zip4Rows]

lemma zip4Rows_map_x (base : Nat) :
    ∀ (os : List Nat) (xs ys zs : List Int),
      xs.length = ys.length → ys.length = zs.length → zs.length = os.length →
      (zip4Rows base os xs ys zs).map (fun r => r.x) = xs := by
  intro os
  induction os with
  | nil => intro xs ys zs h1 h2 h3; cases xs <;> cases ys <;> cases zs <;> simp_all [zip4Rows]
  | cons o os ih =>
      intro xs ys zs h1 h2 h3
      cases xs <;> cases ys <;> cases zs <;> simp_all [zip4Rows]

lemma zip4Rows_map_y (base : Nat) :
    ∀ (os : List Nat) (xs ys zs : List Int),
      xs.length = ys.length → ys.length = zs.length → zs.length = os.length →
      (zip4Rows base os xs ys zs).map (fun r => r.y) = ys := by
  intro os
  induction os with
  | nil => intro xs ys zs h1 h2 h3; cases xs <;> cases ys <;> cases zs <;> simp_all [zip4Rows]
  | cons o os ih =>
      intro xs ys zs h1 h2 h3
      cases xs <;> cases ys <;> cases zs <;> simp_all [zip4Rows]

lemma zip4Rows_map_z (base : Nat) :
    ∀ (os : List Nat) (xs ys zs : List Int),
      xs.length = ys.length → ys.length = zs.length → zs.length = os.length →
      (zip4Rows base os xs ys zs).map (fun r => r.z) = zs := by
  intro os
  induction os with
  | nil => intro xs ys zs h1 h2 h3; cases xs <;> cases ys <;> cases zs <;> simp_all [zip4Rows]
  | cons o os ih =>
      intro xs ys zs h1 h2 h3
      cases xs <;> cases ys <;> cases zs <;> simp_all [zip4Rows]

lemma setLastEnd_append (t : Nat) :
    ∀ (d : List SelfReportRow) (r : SelfReportRow),
      setLastEnd (d ++ [r]) t = some (d ++ [{ r with end_timestamp := some t }]) := by
  intro d
  induction d with
  | nil => intro r; simp [setLastEnd]
  | cons a d ih =>
      intro r
      cases d with
      | nil => simp [setLastEnd]
      | cons b d =>
          have h := ih r
          simp only [List.cons_append, setLastEnd, List.append_eq]
          rw [List.cons_append] at h
          rw [h]
          simp

lemma openCount_append (a b : List SelfReportRow) :
    openCount (a ++ b) = openCount a + openCount b := by
  simp [openCount, List.filter_append]

lemma DetInv_openCount {df : List SelfReportRow} {active : Bool} (h : DetInv df active) :
    openCount df ≤ 1 := by
  cases active with
  | false => simp only [DetInv] at h; omega
  | true =>
      obtain ⟨d, r, hdf, hr, hd⟩ := h
      subst hdf
      rw [openCount_append, hd]
      simp [openCount, hr]

lemma process_self_reports_DetInv {df : List SelfReportRow} {active : Bool}
    (h : DetInv df active) (ts : Nat) (ety : Int) (fld : Int)
    {res : List SelfReportRow × Bool}
    (hres : process_self_reports ts ety df active fld = some res) :
    DetInv res.1 res.2 := by
  unfold process_self_reports at hres
  split at hres
  · split at hres
    · rename_i hcond
      obtain ⟨ha, hf⟩ := hcond
      subst ha
      simp only [DetInv] at h
      injection hres with hres
      subst hres
      exact ⟨df, _, rfl, rfl, h⟩
    · split at hres
      · rename_i hc1 hcond2
        obtain ⟨ha, hf⟩ := hcond2
        subst ha
        obtain ⟨d, r, hdf, hr, hd⟩ := h
        subst hdf
        rw [setLastEnd_append] at hres
        simp only [Option.map_some'] at hres
        injection hres with hres
        subst hres
        simp only [DetInv]
        rw [openCount_append, hd]
        simp [openCount]
      · injection hres with hres; subst hres; exact h
  · injection hres with hres; subst hres; exact h

lemma record_step_rows (s : RecState) (record : RecordMsg) :
    (record_step s record).rows = s.rows ++ (rowOf record).toList := by
  unfold record_step rowOf
  cases record.timestamp with
  | none => simp
  | some ts =>
      cases h1 : record.developer_fields.get? 1 with
      | none => simp
      | some fld =>
          cases h2 : record.developer_fields.get? 2 with
          | none => simp
          | some ety =>
              cases hp : process_self_reports ts ety s.df_event s.is_event_active fld with
              | none => simp [hp]
              | some res => cases res; simp [hp]

lemma record_step_det (s : RecState) (record : RecordMsg) :
    (record_step s record).df_event = (detStep (s.df_event, s.is_event_active) record).1
    ∧ (record_step s record).is_event_active = (detStep (s.df_event, s.is_event_active) record).2 := by
  unfold record_step detStep
  cases record.timestamp with
  | none => simp
  | some ts =>
      cases h1 : record.developer_fields.get? 1 with
      | none => simp
      | some fld =>
          cases h2 : record.developer_fields.get? 2 with
          | none => simp
          | some ety =>
              cases hp : process_self_reports ts ety s.df_event s.is_event_active fld with
              | none => simp [hp]
              | some res => cases res; simp [hp]

lemma foldl_rows (l : List RecordMsg) :
    ∀ (s : RecState), (l.foldl record_step s).rows = s.rows ++ l.filterMap rowOf := by
  induction l with
  | nil => intro s; simp
  | cons r l ih =>
      intro s
      rw [List.foldl_cons, ih, record_step_rows, List.filterMap_cons]
      cases h : rowOf r <;> simp [h]

lemma foldl_det (l : List RecordMsg) :
    ∀ (s : RecState),
      ((l.foldl record_step s).df_event, (l.foldl record_step s).is_event_active)
        = l.foldl detStep (s.df_event, s.is_event_active) := by
  induction l with
  | nil => intro s; simp
  | cons r l ih =>
      intro s
      rw [List.foldl_cons, ih, List.foldl_cons]
      obtain ⟨h1, h2⟩ := record_step_det s r
      rw [h1, h2]

lemma detStep_skip (dp : List SelfReportRow × Bool) (record : RecordMsg)
    (hlen : record.developer_fields.length ≤ 1) : detStep dp record = dp := by
  unfold detStep
  cases record.timestamp with
  | none => rfl
  | some ts =>
      have h1 : record.developer_fields.get? 1 = none := List.get?_eq_none.mpr hlen
      rw [h1]

lemma detStep_DetInv {dp : List SelfReportRow × Bool} (record : RecordMsg)
    (h : DetInv dp.1 dp.2) : DetInv (detStep dp record).1 (detStep dp record).2 := by
  unfold detStep
  cases record.timestamp with
  | none => exact h
  | some ts =>
      cases h1 : record.developer_fields.get? 1 with
      | none => exact h
      | some fld =>
          cases h2 : record.developer_fields.get? 2 with
          | none => exact h
          | some ety =>
              cases hp : process_self_reports ts ety dp.1 dp.2 fld with
              | none => simp only [hp, Option.getD_none]; exact h
              | some res =>
                  simp only [hp, Option.getD_some]
                  exact process_self_reports_DetInv h ts ety fld hp

lemma foldl_detStep_DetInv (l : List RecordMsg) :
    ∀ (dp : List SelfReportRow × Bool), DetInv dp.1 dp.2 →
      DetInv (l.foldl detStep dp).1 (l.foldl detStep dp).2 := by
  induction l with
  | nil => intro dp h; exact h
  | cons r l ih =>
      intro dp h
      rw [List.foldl_cons]
      exact ih (detStep dp r) (detStep_DetInv r h)

lemma walk_DetInv (l : List RecordMsg) :
    DetInv ((l.foldl record_step initRecState).df_event)
      ((l.foldl record_step initRecState).is_event_active) := by
  have h := foldl_det l initRecState
  have hinit : DetInv ([] : List SelfReportRow) false := by
    simp only [DetInv, openCount, List.filter_nil, List.length_nil]
  have h2 := foldl_detStep_DetInv l ([], false) hinit
  rw [show ((initRecState.df_event, initRecState.is_event_active)
        = (([] : List SelfReportRow), false)) from rfl] at h
  rw [show (l.foldl record_step initRecState).df_event = (l.foldl detStep ([], false)).1 from by rw [← h],
      show (l.foldl record_step initRecState).is_event_active = (l.foldl detStep ([], false)).2 from by rw [← h]]
  exact h2

lemma process_pool_skip (xs ys : List (Option MessageTable)) (f : Option MessageTable)
    (hf : (process_single_file f).isOk = false) :
    process_pool (xs ++ f :: ys) = process_pool (xs ++ ys) := by
  unfold process_pool
  rw [List.foldl_append, List.foldl_cons, List.foldl_append]
  congr 1
  cases h : process_single_file f with
  | error e => simp [h]
  | ok b => rw [h] at hf; simp [Except.isOk, Except.toBool] at hf

/-- C1: the claim states the four outputs of a File Processing Unit are
attempted independently and the success flag is true iff at least one table
was produced; the code contradicts this (and its own return annotation):
for a table with sensor data but no record message key, the line-244 unpack
of the None returned by _extract_record_data_fast raises a TypeError, so
the unit crashes after writing the sensor tables (the error payload below)
and never computes a success flag. -/
theorem C1_record_absent_crash :
    process_to_csv (some crashTable) =
      Except.error (some [{ timestamp := 1000, x := 1, y := 3, z := 5 },
                          { timestamp := 1020, x := 2, y := 4, z := 6 }], none) := rfl

/-- C2 counterexample: the claim states an exception escaping a unit is
caught at the dispatch boundary also when files are processed sequentially;
in the sequential branch there is no handler, so a batch whose first file
raises aborts as a whole (first conjunct), although the second file alone
would have been counted as a success (second conjunct). -/
theorem C2_sequential_abort :
    process_all_files [some crashTable, some goodTable] false
      = Except.error (some [{ timestamp := 1000, x := 1, y := 3, z := 5 },
                            { timestamp := 1020, x := 2, y := 4, z := 6 }], none)
    ∧ process_all_files [some goodTable] false = Except.ok 1 := by
  constructor <;> rfl

/-- C2 amended: when the worker pool is used (multiprocessing enabled and
more than one file), an exception escaping one unit is contained: the batch
still completes, the remaining files are all dispatched, and the reported
success count is exactly that of the batch without the failing file. -/
theorem C2_pool_isolation (xs ys : List (Option MessageTable)) (f : Option MessageTable)
    (hf : (process_single_file f).isOk = false) (hne : xs ++ ys ≠ []) :
    process_all_files (xs ++ f :: ys) true = Except.ok (process_pool (xs ++ ys)) := by
  have h1 : (xs ++ ys).length ≥ 1 := by
    cases hxy : xs ++ ys with
    | nil => exact absurd hxy hne
    | cons a l => simp
  have hlen : (xs ++ f :: ys).length > 1 := by
    simp only [List.length_append, List.length_cons] at h1 ⊢
    omega
  unfold process_all_files
  rw [if_pos ⟨rfl, hlen⟩]
  rw [process_pool_skip xs ys f hf]

/-- C2 witness: a concrete two-file pool batch whose first file raises
reports one success, the contribution of the unaffected second file. -/
theorem C2_pool_isolation_witness :
    process_all_files [some crashTable, some goodTable] true
      = Except.ok (process_pool [some goodTable]) :=
  C2_pool_isolation [] [some goodTable] (some crashTable) (by decide) (by decide)

/-- C3 counterexample: the claim states that in state Active any active-flag
value other than the on-value closes the interval regardless of the
event-type code; but with an unrecognized code 3 and flag 0 the detector
stays Active (first conjunct), and with recognized code 1 and flag 2 it
also stays Active (second conjunct). -/
theorem C3_counterexample :
    process_self_reports 9 3 [openRow] true 0 = some ([openRow], true)
    ∧ process_self_reports 9 1 [openRow] true 2 = some ([openRow], true) := by
  constructor <;> rfl

/-- C3 amended: in state Active the detector closes the last interval and
returns to Idle exactly when the event-type code is recognized and the
active-flag value equals 0; every other input is a no-op. -/
theorem C3_close_requires_code_and_zero (ts : Nat) (ety : Int)
    (d : List SelfReportRow) (r : SelfReportRow) (fld : Int) :
    process_self_reports ts ety (d ++ [r]) true fld =
      if ety ∈ VALID_SELF_REPORT_EVENT_TYPES ∧ fld = 0 then
        some (d ++ [{ r with end_timestamp := some ts }], false)
      else
        some (d ++ [r], true) := by
  unfold process_self_reports
  by_cases hm : ety ∈ VALID_SELF_REPORT_EVENT_TYPES <;> by_cases hf : fld = 0 <;>
    simp [hm, hf, setLastEnd_append]

/-- C4 counterexample: the claim states a table lacking the message type
yields a no-data result distinguishable from a present-but-empty table; but
the expander returns none in both situations, although the two tables
differ (message key absent versus present with zero groups), so the result
does not let the caller distinguish them. -/
theorem C4_counterexample :
    extract_sensor_data_fast absentTable SensorType.accelerometer = none
    ∧ extract_sensor_data_fast emptyPresentTable SensorType.accelerometer = none
    ∧ sensorGroupsOf absentTable SensorType.accelerometer = none
    ∧ sensorGroupsOf emptyPresentTable SensorType.accelerometer = some [] := by decide

/-- C4 amended: the expander result distinguishes exactly two cases, not
three: it is none precisely when the message type is absent or every group
contributes zero rows, and a table otherwise; absence and present-but-empty
are not distinguishable in the result. -/
theorem C4_no_data (msgs : MessageTable) (st : SensorType) :
    (extract_sensor_data_fast msgs st = none
      ↔ ((sensorGroupsOf msgs st).getD []).flatMap groupRows = []) := by
  unfold extract_sensor_data_fast
  cases h : sensorGroupsOf msgs st with
  | none => simp
  | some groups =>
      simp only [Option.getD_some]
      split
      · rename_i hemp; simp_all [List.isEmpty_iff]
      · rename_i hemp; simp_all [List.isEmpty_iff]

/-- C5: a record with a timestamp but without the auxiliary detector fields
(developer positions 1 and 2) still contributes its record row, in place,
while the detector frame and flag are exactly those of the stream with that
record removed. -/
theorem C5_aux_missing (xs ys : List RecordMsg) (r : RecordMsg) (ts : Nat)
    (hts : r.timestamp = some ts) (hlen : r.developer_fields.length ≤ 1) :
    ((xs ++ r :: ys).foldl record_step initRecState).rows
        = xs.filterMap rowOf
          ++ ({ timestamp := ts, heart_rate := r.heart_rate,
                developer_field := r.developer_fields.head? } : RecordRow)
          :: ys.filterMap rowOf
    ∧ ((xs ++ r :: ys).foldl record_step initRecState).df_event
        = ((xs ++ ys).foldl record_step initRecState).df_event
    ∧ ((xs ++ r :: ys).foldl record_step initRecState).is_event_active
        = ((xs ++ ys).foldl record_step initRecState).is_event_active := by
  have hrow : rowOf r = some ({ timestamp := ts, heart_rate := r.heart_rate, developer_field := r.developer_fields.head? } : RecordRow) := by
    simp [rowOf, hts]
  have hdet : (xs ++ r :: ys).foldl detStep (initRecState.df_event, initRecState.is_event_active)
      = (xs ++ ys).foldl detStep (initRecState.df_event, initRecState.is_event_active) := by
    rw [List.foldl_append, List.foldl_cons, detStep_skip _ _ hlen, ← List.foldl_append]
  have h1 := foldl_det (xs ++ r :: ys) initRecState
  have h2 := foldl_det (xs ++ ys) initRecState
  refine ⟨?_, ?_, ?_⟩
  · rw [foldl_rows]
    rw [show initRecState.rows = [] from rfl]
    rw [List.filterMap_append, List.filterMap_cons, hrow]
    simp
  · have e1 := congrArg Prod.fst h1
    have e2 := congrArg Prod.fst h2
    simp only at e1 e2
    rw [e1, e2, hdet]
  · have a1 := congrArg Prod.snd h1
    have a2 := congrArg Prod.snd h2
    simp only at a1 a2
    rw [a1, a2, hdet]

/-- C5 witness: a one-record stream whose record has a timestamp and a
single developer field yields that record row while the detector output
matches the empty stream. -/
theorem C5_aux_missing_witness :
    ((([] : List RecordMsg) ++ auxMissingRecord :: ([] : List RecordMsg)).foldl record_step initRecState).rows
        = ([] : List RecordMsg).filterMap rowOf
          ++ ({ timestamp := 5, heart_rate := auxMissingRecord.heart_rate,
                developer_field := auxMissingRecord.developer_fields.head? } : RecordRow)
          :: ([] : List RecordMsg).filterMap rowOf
    ∧ ((([] : List RecordMsg) ++ auxMissingRecord :: ([] : List RecordMsg)).foldl record_step initRecState).df_event
        = ((([] : List RecordMsg) ++ ([] : List RecordMsg)).foldl record_step initRecState).df_event
    ∧ ((([] : List RecordMsg) ++ auxMissingRecord :: ([] : List RecordMsg)).foldl record_step initRecState).is_event_active
        = ((([] : List RecordMsg) ++ ([] : List RecordMsg)).foldl record_step initRecState).is_event_active :=
  C5_aux_missing [] [] auxMissingRecord 5 rfl (by decide)

/-- C6: for a group whose offset, x, y, z sequences share one length k, the
expander emits exactly k rows, row i carrying base + offset i as timestamp
and the axis values at index i, and the extractor concatenates group rows
in encounter order without re-sorting. -/
theorem C6_sample_expansion (g : SensorGroup)
    (hx : (g.x.getD []).length = (g.y.getD []).length)
    (hy : (g.y.getD []).length = (g.z.getD []).length)
    (hz : (g.z.getD []).length = (g.sample_time_offset.getD []).length) :
    (groupRows g).length = (g.sample_time_offset.getD []).length
    ∧ (groupRows g).map (fun r => r.timestamp)
        = (g.sample_time_offset.getD []).map (fun o => g.timestamp_ms.getD 0 + o)
    ∧ (groupRows g).map (fun r => r.x) = g.x.getD []
    ∧ (groupRows g).map (fun r => r.y) = g.y.getD []
    ∧ (groupRows g).map (fun r => r.z) = g.z.getD []
    ∧ ∀ (msgs : MessageTable) (st : SensorType) (gs : List SensorGroup) (rows : List SensorRow),
        sensorGroupsOf msgs st = some gs → extract_sensor_data_fast msgs st = some rows →
        rows = gs.flatMap groupRows := by
  have hg : groupRows g = zip4Rows (g.timestamp_ms.getD 0) (g.sample_time_offset.getD [])
      (g.x.getD []) (g.y.getD []) (g.z.getD []) := by
    unfold groupRows
    rw [if_pos ⟨hx, hy, hz⟩]
  refine ⟨?_, ?_, ?_, ?_, ?_, ?_⟩
  · rw [hg]; exact zip4Rows_length _ _ _ _ _ hx hy hz
  · rw [hg]; exact zip4Rows_map_timestamp _ _ _ _ _ hx hy hz
  · rw [hg]; exact zip4Rows_map_x _ _ _ _ _ hx hy hz
  · rw [hg]; exact zip4Rows_map_y _ _ _ _ _ hx hy hz
  · rw [hg]; exact zip4Rows_map_z _ _ _ _ _ hx hy hz
  · intro msgs st gs rows h1 h2
    simp only [extract_sensor_data_fast, h1] at h2
    split at h2
    · exact absurd h2 (by simp)
    · injection h2 with h2; exact h2.symm

/-- C6 witness: the concrete two-sample group expands to two rows with
timestamps base + 0 and base + 20 and the paired axis values. -/
theorem C6_sample_expansion_witness :
    (groupRows accelGroup).length = 2
    ∧ (groupRows accelGroup).map (fun r => r.timestamp) = [1000, 1020]
    ∧ (groupRows accelGroup).map (fun r => r.x) = [1, 2]
    ∧ (groupRows accelGroup).map (fun r => r.y) = [3, 4]
    ∧ (groupRows accelGroup).map (fun r => r.z) = [5, 6]
    ∧ ∀ (msgs : MessageTable) (st : SensorType) (gs : List SensorGroup) (rows : List SensorRow),
        sensorGroupsOf msgs st = some gs → extract_sensor_data_fast msgs st = some rows →
        rows = gs.flatMap groupRows :=
  C6_sample_expansion accelGroup (by decide) (by decide) (by decide)

/-- C7: a group whose four sequences disagree in length contributes zero
rows and leaves the rows of all other groups unchanged. -/
theorem C7_mismatched_group (g : SensorGroup)
    (h : ¬ ((g.x.getD []).length = (g.y.getD []).length
        ∧ (g.y.getD []).length = (g.z.getD []).length
        ∧ (g.z.getD []).length = (g.sample_time_offset.getD []).length)) :
    groupRows g = []
    ∧ ∀ (pre post : List SensorGroup),
        (pre ++ g :: post).flatMap groupRows = (pre ++ post).flatMap groupRows := by
  have hg : groupRows g = [] := by unfold groupRows; rw [if_neg h]
  refine ⟨hg, ?_⟩
  intro pre post
  rw [List.flatMap_append, List.flatMap_cons, hg, List.flatMap_append]
  simp

/-- C7 witness: the concrete mismatched group contributes no rows and drops
out of any surrounding group sequence. -/
theorem C7_mismatched_group_witness :
    groupRows badGroup = []
    ∧ ∀ (pre post : List SensorGroup),
        (pre ++ badGroup :: post).flatMap groupRows = (pre ++ post).flatMap groupRows :=
  C7_mismatched_group badGroup (by decide)

/-- C8: along any record walk at most one self-report interval is open, and
an on-signal (flag 1) arriving while the detector is already Active is a
no-op for every event-type code. -/
theorem C8_single_open (stream : List RecordMsg) (ts : Nat) (ety : Int)
    (df : List SelfReportRow) :
    openCount ((stream.foldl record_step initRecState).df_event) ≤ 1
    ∧ process_self_reports ts ety df true 1 = some (df, true) := by
  constructor
  · exact DetInv_openCount (walk_DetInv stream)
  · unfold process_self_reports
    by_cases hm : ety ∈ VALID_SELF_REPORT_EVENT_TYPES <;> simp [hm]

/-- C9: when the record walk ends while the detector is Active, the
extracted self-report frame ends with exactly one open interval (end still
the open marker) and every earlier interval is closed: the last interval is
neither dropped nor auto-closed. -/
theorem C9_truncated (msgs : MessageTable) (records : List RecordMsg)
    (recs : List RecordRow) (selfs : List SelfReportRow)
    (h1 : msgs.record_mesgs = some records)
    (h2 : extract_record_data_fast msgs = some (recs, selfs))
    (h3 : (records.foldl record_step initRecState).is_event_active = true) :
    ∃ d r, selfs = d ++ [r] ∧ r.end_timestamp = none
      ∧ ∀ x ∈ d, x.end_timestamp ≠ none := by
  have hself : selfs = (records.foldl record_step initRecState).df_event := by
    simp only [extract_record_data_fast, h1] at h2
    split at h2
    · exact absurd h2 (by simp)
    · injection h2 with h2
      exact (congrArg Prod.snd h2).symm
  have hinv := walk_DetInv records
  rw [h3] at hinv
  simp only [DetInv] at hinv
  obtain ⟨d, r, hdf, hr, hd⟩ := hinv
  refine ⟨d, r, by rw [hself, hdf], hr, ?_⟩
  intro x hx
  simp only [openCount] at hd
  rw [List.length_eq_zero] at hd
  have hfx := List.filter_eq_nil_iff.mp hd x hx
  simpa [Option.isNone_iff_eq_none] using hfx

/-- C9 witness: the concrete one-record stream opens an interval and ends
Active; the extracted frame is that single open interval. -/
theorem C9_truncated_witness :
    ∃ d r, ([{ start_timestamp := 10, end_timestamp := none, event_type := 1 }] : List SelfReportRow) = d ++ [r]
      ∧ r.end_timestamp = none ∧ ∀ x ∈ d, x.end_timestamp ≠ none :=
  C9_truncated goodTable [goodRecord]
    [{ timestamp := 10, heart_rate := some 70, developer_field := some 0 }]
    [{ start_timestamp := 10, end_timestamp := none, event_type := 1 }]
    rfl rfl rfl

/-- C10: a length-consistent group without a base timestamp is not skipped:
the default base 0 is substituted, so its rows carry the epoch plus each
sample offset as timestamps. -/
theorem C10_missing_base (g : SensorGroup) (hb : g.timestamp_ms = none)
    (hx : (g.x.getD []).length = (g.y.getD []).length)
    (hy : (g.y.getD []).length = (g.z.getD []).length)
    (hz : (g.z.getD []).length = (g.sample_time_offset.getD []).length) :
    groupRows g = groupRows { g with timestamp_ms := some 0 }
    ∧ (groupRows g).length = (g.sample_time_offset.getD []).length
    ∧ (groupRows g).map (fun r => r.timestamp) = g.sample_time_offset.getD [] := by
  have hg : groupRows g = zip4Rows 0 (g.sample_time_offset.getD [])
      (g.x.getD []) (g.y.getD []) (g.z.getD []) := by
    unfold groupRows
    rw [if_pos ⟨hx, hy, hz⟩, hb]
    rfl
  have hg2 : groupRows { g with timestamp_ms := some 0 } = zip4Rows 0
      (g.sample_time_offset.getD []) (g.x.getD []) (g.y.getD []) (g.z.getD []) := by
    unfold groupRows
    rw [if_pos ⟨hx, hy, hz⟩]
    rfl
  refine ⟨hg.trans hg2.symm, ?_, ?_⟩
  · rw [hg]; exact zip4Rows_length _ _ _ _ _ hx hy hz
  · rw [hg]
    rw [zip4Rows_map_timestamp _ _ _ _ _ hx hy hz]
    simp

/-- C10 witness: the concrete baseless group keeps its two samples, whose
timestamps equal the offsets themselves. -/
theorem C10_missing_base_witness :
    groupRows noBaseGroup = groupRows { noBaseGroup with timestamp_ms := some 0 }
    ∧ (groupRows noBaseGroup).length = 2
    ∧ (groupRows noBaseGroup).map (fun r => r.timestamp) = [3, 4] :=
  C10_missing_base noBaseGroup rfl (by decide) (by decide) (by decide)

end FitExtract
